import Mathlib

/-!
Verification development for the solar-flair repository.

This file gives a shallow embedding of the multi-source resolution pipeline
found in the repository (provider adapters, response normalizer, fallback
resolver, pipeline orchestrator, ephemeral result cache) and proves or
refutes the testable properties stated about it.

Conventions of the embedding:
  - JavaScript numbers are modelled as rationals (ℚ); `Math.round` becomes
    `jround` (floor of x + 1/2, which is the half-up rounding JS uses),
    `Math.ceil` becomes `Int.ceil`.
  - Network calls are modelled as oracle parameters: each adapter receives
    the outcome of its external call as an argument; a resolver records a
    trace of which providers it consulted.
  - Thrown JS exceptions become `Except` errors; `null`/`undefined` become
    `Option`/an explicit `JsValue.undef`.
-/

/-- JavaScript `Math.round`: round half toward positive infinity, i.e. the
floor of x + 1/2 (stated via the executable `Rat.floor`). -/
def jround (x : ℚ) : ℤ := Rat.floor (x + 1 / 2)

/-- JavaScript `Number.prototype.toFixed(1)` for the non-negative values used
here: round to one decimal place. -/
def toFixed1 (q : ℚ) : ℚ := ((jround (q * 10) : ℚ)) / 10

/-- JavaScript `Number.prototype.toFixed(0)` rendered back to a string
(used inside template-literal recommendation texts). -/
def toFixed0 (q : ℚ) : String := toString (jround q)

/-- A dynamically-typed JavaScript value (the payloads the normalizer sees). -/
inductive JsValue where
  | undef
  | jnull
  | bool (b : Bool)
  | num (q : ℚ)
  | str (s : String)
  | arr (xs : List JsValue)
  | obj (fields : List (String × JsValue))

/-- JavaScript truthiness of a value (`if (v)`), as used by the memory store
and the route handler. -/
def jsTruthy : JsValue → Bool
  | JsValue.undef => false
  | JsValue.jnull => false
  | JsValue.bool b => b
  | JsValue.num q => decide (q ≠ 0)
  | JsValue.str s => decide (s ≠ (""))
  | JsValue.arr _ => true
  | JsValue.obj _ => true

/-- Location record produced by `geocode` (solar-advisor/src/lib/geo.ts,
enhanced variant: `GeoOut`). -/
structure GeoOut where
  lat : ℚ
  lng : ℚ
  std : String
  melissaVerified : Bool
  confidence : ℚ
  timeZone : String
  county : String
  propertyType : Option String
  parcelId : Option String
  elevation : Option ℚ
  deriving DecidableEq

/-- One entry of `SolarOut.recommendations` (unnamed part_006:
`SolarRecommendation`). -/
structure SolarRecommendation where
  type : String
  description : String
  impact : String
  priority : String
  deriving DecidableEq

/-- Solar capability record (unnamed part_006: `SolarOut`). -/
structure SolarOut where
  annualKwh : ℚ
  monthlyProduction : List ℤ
  roofAzimuthDeg : ℚ
  roofTiltDeg : ℚ
  panelCapacityKw : ℚ
  panelCount : ℤ
  sunHoursPerDay : ℚ
  systemEfficiency : ℚ
  confidence : ℚ
  recommendations : List SolarRecommendation
  deriving DecidableEq

/-- Monthly distribution percentages for latitude above 40 (part_006
`calculateMonthlyProduction`). -/
def northernDistribution : List ℕ := [4, 5, 8, 10, 12, 13, 14, 12, 9, 7, 4, 2]

/-- Monthly distribution percentages for latitude in (30, 40]. -/
def middleDistribution : List ℕ := [5, 6, 8, 10, 11, 12, 12, 11, 9, 8, 5, 3]

/-- Monthly distribution percentages for latitude at most 30. -/
def southernDistribution : List ℕ := [7, 7, 9, 10, 10, 10, 10, 10, 9, 8, 6, 4]

/-- part_006 `calculateMonthlyProduction`: distribute an annual kWh figure
over 12 months by a latitude-banded percentage table, rounding each month
with `Math.round`. The `systemSize` parameter is unused, as in the source. -/
def calculateMonthlyProduction (annualKwh latitude systemSize : ℚ) : List ℤ :=
  let distribution :=
    if latitude > 40 then northernDistribution
    else if latitude > 30 then middleDistribution
    else southernDistribution
  distribution.map (fun (percentage : ℕ) => jround (annualKwh * (percentage : ℚ) / 100))

/-- part_006 `calculateSunHours`. -/
def calculateSunHours (latitude : ℚ) : ℚ :=
  let baseHours : ℚ := 5
  let latitudeAdjustment : ℚ := max 0 (40 - |latitude|) * (5 / 100)
  toFixed1 (baseHours + latitudeAdjustment)

/-- The three static recommendations built inside part_006 `pvWatts`
(the tilt text interpolates `Math.round(geo.lat * 0.76)`). -/
def pvWattsRecommendations (geo : GeoOut) : List SolarRecommendation :=
  [ { type := ("Panel Orientation"),
      description := ("Orient panels due south for optimal production"),
      impact := ("Up to 15% increase in annual production"),
      priority := ("high") },
    { type := ("Panel Tilt"),
      description := ("Optimal tilt angle of " ++ toString (jround (geo.lat * (76 / 100))) ++ ("° based on your location")),
      impact := ("Up to 10% increase in annual production"),
      priority := ("medium") },
    { type := ("System Size"),
      description := ("Consider a 5kW system based on average household consumption"),
      impact := ("Balanced investment with good ROI"),
      priority := ("high") } ]

/-- The two recommendations built inside part_006 `createEstimatedSolarData`
(system size is the constant 5, the production text interpolates
`annualKwh.toFixed(0)`). -/
def estimatedRecommendations (annualKwh : ℚ) : List SolarRecommendation :=
  [ { type := ("System Size"),
      description := ("Estimated optimal system size: 5kW"),
      impact := ("Estimated annual production: " ++ toFixed0 annualKwh ++ (" kWh")),
      priority := ("high") },
    { type := ("Professional Assessment"),
      description := ("Consider getting a professional assessment for more accurate estimates"),
      impact := ("More precise system sizing and ROI calculations"),
      priority := ("medium") } ]

/-- part_006 `createEstimatedSolarData`: the synthetic estimate used when
every solar provider fails. -/
def createEstimatedSolarData (geo : GeoOut) : SolarOut :=
  let baseProduction : ℚ := 1400
  let latitudeAdjustment : ℚ := max 0 (50 - |geo.lat|) * 30
  let productionPerKw : ℚ := baseProduction + latitudeAdjustment
  let systemSize : ℚ := 5
  let annualKwh : ℚ := productionPerKw * systemSize
  { annualKwh := annualKwh,
    monthlyProduction := calculateMonthlyProduction annualKwh geo.lat systemSize,
    roofAzimuthDeg := 180,
    roofTiltDeg := ((jround (geo.lat * (76 / 100)) : ℤ) : ℚ),
    panelCapacityKw := systemSize,
    panelCount := ⌈(systemSize * 1000 / 350 : ℚ)⌉,
    sunHoursPerDay := calculateSunHours geo.lat,
    systemEfficiency := 77 / 100,
    confidence := 6 / 10,
    recommendations := estimatedRecommendations annualKwh }

/-- Outcome of the NREL PVWatts HTTP call consumed by part_006 `pvWatts`
(missing key, non-ok status and a thrown fetch error all lead to the
estimated-data fallback in the source). -/
inductive NrelOutcome where
  | missingKey
  | httpError (status : ℕ)
  | networkError
  | ok (acAnnual : ℚ) (acMonthly : Option (List ℚ))
  deriving DecidableEq

/-- Whether the NREL call failed (any branch of part_006 `pvWatts` that
falls back to `createEstimatedSolarData`). -/
def NrelOutcome.failed : NrelOutcome → Bool
  | NrelOutcome.ok _ _ => false
  | _ => true

/-- part_006 `pvWatts`: the backup solar adapter. On any failure it degrades
to `createEstimatedSolarData`; on success it builds a `SolarOut` with fixed
confidence 0.85, monthly data from `outputs.ac_monthly` (rounded) when
present or from `calculateMonthlyProduction` otherwise. -/
def pvWatts (nrel : NrelOutcome) (geo : GeoOut) : SolarOut :=
  match nrel with
  | NrelOutcome.missingKey => createEstimatedSolarData geo
  | NrelOutcome.httpError _ => createEstimatedSolarData geo
  | NrelOutcome.networkError => createEstimatedSolarData geo
  | NrelOutcome.ok acAnnual acMonthly =>
    { annualKwh := acAnnual,
      monthlyProduction :=
        (match acMonthly with
         | some vals => vals.map jround
         | none => calculateMonthlyProduction acAnnual geo.lat 5),
      roofAzimuthDeg := 180,
      roofTiltDeg := ((jround (geo.lat * (76 / 100)) : ℤ) : ℚ),
      panelCapacityKw := 5,
      panelCount := ⌈((5 : ℚ) * 1000 / 350)⌉,
      sunHoursPerDay := calculateSunHours geo.lat,
      systemEfficiency := 77 / 100,
      confidence := 85 / 100,
      recommendations := pvWattsRecommendations geo }

/-- part_006 `enrichSolarData`: predicate over existing recommendations. -/
def hasLocationRec (recs : List SolarRecommendation) : Bool :=
  recs.any (fun r => r.type == ("Location-Specific") || r.type == ("Climate-Specific"))

/-- The climate recommendation appended by part_006 `enrichSolarData`. -/
def climateRecommendationFor (lat : ℚ) : SolarRecommendation :=
  if lat < 30 then
    { type := ("Climate-Specific"),
      description := ("Consider heat-resistant panels and mounting systems with good airflow"),
      impact := ("Prevent efficiency losses in hot weather"),
      priority := ("medium") }
  else if lat > 40 then
    { type := ("Climate-Specific"),
      description := ("Consider snow guards and steeper tilt angles for winter performance"),
      impact := ("Maintain production during winter months"),
      priority := ("medium") }
  else
    { type := ("Climate-Specific"),
      description := ("Your moderate climate is ideal for solar - consider premium panels for maximum efficiency"),
      impact := ("Optimal year-round performance"),
      priority := ("medium") }

/-- part_006 `enrichSolarData`: bumps the confidence by 0.05 (capped at 1)
when the location was Melissa-verified and appends a climate
recommendation when none is present. -/
def enrichSolarData (data : SolarOut) (geo : GeoOut) : SolarOut :=
  let conf := if geo.melissaVerified then min 1 (data.confidence + 5 / 100) else data.confidence
  let recs :=
    if hasLocationRec data.recommendations then data.recommendations
    else data.recommendations ++ [climateRecommendationFor geo.lat]
  { data with confidence := conf, recommendations := recs }

/-- Identity of a solar-capability provider, for consultation traces. -/
inductive SolarProvider where
  | googleSolar
  | nrelPvwatts
  deriving DecidableEq

/-- part_006 `getSolar`: the solar fallback resolver. The Google Solar
adapter result arrives as an `Option SolarOut` oracle (`null` = unavailable)
and the NREL call outcome as an `NrelOutcome` oracle. The second component
records, in order, the providers consulted during the resolution. -/
def getSolar (primary : Option SolarOut) (nrel : NrelOutcome) (geo : GeoOut) :
    SolarOut × List SolarProvider :=
  match primary with
  | some p => (enrichSolarData p geo, [SolarProvider.googleSolar])
  | none =>
    (enrichSolarData (pvWatts nrel geo) geo,
     [SolarProvider.googleSolar, SolarProvider.nrelPvwatts])

/-- The solar stage value before enrichment: whichever provider won. -/
def solarStageResult (primary : Option SolarOut) (nrel : NrelOutcome) (geo : GeoOut) : SolarOut :=
  match primary with
  | some p => p
  | none => pvWatts nrel geo

/-- part_006 `getSolar`, instrumented with an invocation counter: provider
oracles are indexed by the global invocation count so that a second run of
the resolver can observe different provider behaviour. Returns the result
and the next counter value. -/
def getSolarRun (insightsAt : ℕ → GeoOut → Option SolarOut) (nrelAt : ℕ → NrelOutcome)
    (geo : GeoOut) (k : ℕ) : SolarOut × ℕ :=
  match insightsAt k geo with
  | some primary => (enrichSolarData primary geo, k + 1)
  | none => (enrichSolarData (pvWatts (nrelAt (k + 1)) geo) geo, k + 2)

/-- Result of `melissaValidation` (geo.ts, enhanced variant): the Melissa
adapter never throws; routine failures come back as an unverified result. -/
structure MelissaOut where
  standardizedAddress : Option String
  verified : Bool
  coordinates : Option (ℚ × ℚ)
  timeZone : Option String
  county : Option String
  propertyType : Option String
  parcelId : Option String
  deriving DecidableEq

/-- The `melissaValidation` return value when the provider is unavailable
(no records, non-JSON response, or a network error after all retries). -/
def melissaUnavailable : MelissaOut :=
  { standardizedAddress := none, verified := false, coordinates := none,
    timeZone := none, county := none, propertyType := none, parcelId := none }

/-- Result of a successful `openStreetMapGeocode` (geo.ts). -/
structure OsmOut where
  lat : ℚ
  lng : ℚ
  std : String
  deriving DecidableEq

/-- geo.ts `getTimeZone`: static timezone lookup by longitude. -/
def getTimeZone (lat lng : ℚ) : String :=
  if lng < -115 then ("America/Los_Angeles")
  else if lng < -100 then ("America/Denver")
  else if lng < -85 then ("America/Chicago")
  else ("America/New_York")

/-- geo.ts `getCounty`: placeholder implementation. -/
def getCounty (lat lng : ℚ) : String := ("County data would be retrieved here")

/-- The error message thrown by geo.ts `openStreetMapGeocode` when Nominatim
returns no result. -/
def osmFailureMessage : String :=
  ("OpenStreetMap geocoding failed: Address not found in OpenStreetMap")

/-- geo.ts `geocode` (enhanced variant): the geocoding fallback resolver.
The Melissa outcome and the OpenStreetMap outcome (`none` = lookup threw)
arrive as oracles; `elev` is the (random) value `getElevation` produced.
When OpenStreetMap is needed and fails, the outer catch rethrows a hard
`Geocoding failed` error. -/
def geocode (melissa : MelissaOut) (osm : Option OsmOut) (addr : String) (elev : ℚ) :
    Except String GeoOut :=
  if melissa.verified then
    match melissa.coordinates with
    | some c =>
      Except.ok
        { lat := c.1, lng := c.2,
          std := melissa.standardizedAddress.getD addr,
          melissaVerified := true, confidence := 95 / 100,
          timeZone := melissa.timeZone.getD ("America/Los_Angeles"),
          county := melissa.county.getD ("Los Angeles"),
          propertyType := melissa.propertyType,
          parcelId := melissa.parcelId,
          elevation := some elev }
    | none =>
      match osm with
      | some o =>
        Except.ok
          { lat := o.lat, lng := o.lng,
            std := melissa.standardizedAddress.getD o.std,
            melissaVerified := true, confidence := 9 / 10,
            timeZone := getTimeZone o.lat o.lng,
            county := getCounty o.lat o.lng,
            propertyType := none, parcelId := none,
            elevation := some elev }
      | none => Except.error (("Geocoding failed: ") ++ osmFailureMessage)
  else
    match osm with
    | some o =>
      Except.ok
        { lat := o.lat, lng := o.lng, std := o.std,
          melissaVerified := false, confidence := 7 / 10,
          timeZone := getTimeZone o.lat o.lng,
          county := getCounty o.lat o.lng,
          propertyType := none, parcelId := none,
          elevation := some elev }
    | none => Except.error (("Geocoding failed: ") ++ osmFailureMessage)

/-- The retry loop inside geo.ts `melissaValidation` (attempts 0, 1, 2
against `maxAttempts = 3`): `succeeds i` says whether the i-th fetch of the
same Melissa endpoint succeeds. Returns whether a fetch succeeded and how
many times the fetch was invoked. -/
def melissaRetryFrom (succeeds : ℕ → Bool) : ℕ → ℕ → Bool × ℕ
  | 0, _ => (false, 0)
  | remaining + 1, attempt =>
    if succeeds attempt then (true, 1)
    else
      let rest := melissaRetryFrom succeeds remaining (attempt + 1)
      (rest.1, rest.2 + 1)

/-- One resolution's worth of Melissa fetch invocations (geo.ts
`melissaValidation`, `maxAttempts = 3`, starting at attempt 0). -/
def melissaFetchInvocations (succeeds : ℕ → Bool) : Bool × ℕ :=
  melissaRetryFrom succeeds 3 0

/-- One entry of the in-memory store (memory.ts `memoryStore[key]`). -/
structure MemoryEntry where
  data : JsValue
  timestamp : ℚ
  expiry : Option ℚ

/-- The ephemeral in-memory store (memory.ts `memoryStore`), modelled as a
key-indexed partial map; `Date.now()` is threaded as an explicit `now`. -/
abbrev MemoryStore := String → Option MemoryEntry

/-- The empty store. -/
def emptyStore : MemoryStore := fun _ => none

/-- Assignment `memoryStore[key] = entry`. -/
def setEntry (st : MemoryStore) (key : String) (entry : MemoryEntry) : MemoryStore :=
  fun k => if k = key then some entry else st k

/-- Deletion `delete memoryStore[key]`. -/
def removeEntry (st : MemoryStore) (key : String) : MemoryStore :=
  fun k => if k = key then none else st k

/-- memory.ts `saveMemory`: stores data with timestamp `now` and expiry
`now + ttl*1000` when a truthy ttl is given (`ttl ? ... : null`), else no
expiry. -/
def saveMemory (st : MemoryStore) (key : String) (data : JsValue) (ttl : Option ℚ) (now : ℚ) :
    MemoryStore :=
  setEntry st key
    { data := data, timestamp := now,
      expiry :=
        match ttl with
        | some t => if t ≠ 0 then some (now + t * 1000) else none
        | none => none }

/-- The expiry test in memory.ts `getMemory`:
`entry.expiry && Date.now() > entry.expiry`. -/
def memoryExpired (entry : MemoryEntry) (now : ℚ) : Bool :=
  match entry.expiry with
  | some e => decide (e ≠ 0) && decide (e < now)
  | none => false

/-- memory.ts `getMemory`: returns the stored data, or `none` when the key
is absent or the entry expired (expired entries are deleted). Returns the
possibly-updated store as second component. -/
def getMemory (st : MemoryStore) (key : String) (now : ℚ) : Option JsValue × MemoryStore :=
  match st key with
  | none => (none, st)
  | some entry =>
    if memoryExpired entry now then (none, removeEntry st key)
    else (some entry.data, st)

/-- memory.ts `updateMemory`: reads the current data, and when it is truthy
re-saves `updateFn(data)` with NO ttl argument. -/
def updateMemory (st : MemoryStore) (key : String) (updateFn : JsValue → JsValue) (now : ℚ) :
    MemoryStore :=
  let res := getMemory st key now
  match res.1 with
  | some currentData =>
    if jsTruthy currentData then saveMemory res.2 key (updateFn currentData) none now
    else res.2
  | none => res.2

/-- solar-service/src/index.ts `extractValue` (identical at both call sites,
lines 386-391 and 733-738): arrays collapse to their first element (or the
default when empty); `undefined` becomes the default; anything else is kept. -/
def extractValue (value dflt : JsValue) : JsValue :=
  match value with
  | JsValue.arr xs =>
    match xs with
    | [] => dflt
    | x :: _ => x
  | JsValue.undef => dflt
  | v => v

/-- JavaScript property access `rawData.name` on a parsed JSON object:
absent fields read as `undefined`. -/
def getField (v : JsValue) (name : String) : JsValue :=
  match v with
  | JsValue.obj fields =>
    (match fields.lookup name with
     | some x => x
     | none => JsValue.undef)
  | _ => JsValue.undef

/-- The normalized property-analysis record built at
solar-service/src/index.ts lines 393-400 (the `Number`/`String` coercions
are identity on the in-range values the claims are about and are kept out
of this pre-coercion record). -/
structure AnalysisData where
  roofArea : JsValue
  suitabilityScore : JsValue
  sunExposure : JsValue
  shadingFactor : JsValue
  roofType : JsValue
  roofSlope : JsValue

/-- solar-service/src/index.ts lines 393-400: per-field normalization of the
raw Gemini payload with the documented defaults. -/
def analysisDataOf (rawData : JsValue) : AnalysisData :=
  { roofArea := extractValue (getField rawData ("roofArea")) (JsValue.num 1800),
    suitabilityScore := extractValue (getField rawData ("suitabilityScore")) (JsValue.num 75),
    sunExposure := extractValue (getField rawData ("sunExposure")) (JsValue.num (13 / 2)),
    shadingFactor := extractValue (getField rawData ("shadingFactor")) (JsValue.num 15),
    roofType := extractValue (getField rawData ("roofType")) (JsValue.str ("Composite Shingle")),
    roofSlope := extractValue (getField rawData ("roofSlope")) (JsValue.num 22) }

/-- The form fields consumed by solar-flair/app/api/assessment/route.ts
`POST` (`formData.get` returns `null` for an absent field, modelled as
`none`). -/
structure AssessmentRequest where
  address : Option String
  roofImages : List String
  utilityBill : Option String

/-- Truthiness of `formData.get(..) as string` in the guard `if (!address)`:
absent or empty means falsy. -/
def addressFalsy : Option String → Bool
  | none => true
  | some s => decide (s = (""))

/-- Outcome of the Gemini `generateContent` call in route.ts: either the
call threw (network/API error) or it returned a text body. -/
inductive GeminiOutcome where
  | failure (message : String)
  | ok (text : String)

/-- An HTTP response produced by the route handler (`NextResponse.json`
with a status). -/
structure RouteResponse where
  status : ℕ
  errorMessage : Option String
  body : Option JsValue

/-- route.ts `POST`. `parseAssessment` stands for the JSON-extraction step
(fenced-block regex / brace-span regex followed by `JSON.parse`), which
yields `none` when no valid JSON can be recovered — in the source that path
throws and is converted to a 500 by the catch-all. The second component
records whether the Gemini provider call was made. -/
def POST (req : AssessmentRequest) (gemini : GeminiOutcome)
    (parseAssessment : String → Option JsValue) : RouteResponse × Bool :=
  if addressFalsy req.address then
    ({ status := 400, errorMessage := some ("Address is required"), body := none }, false)
  else if req.roofImages.isEmpty then
    ({ status := 400, errorMessage := some ("At least one roof image is required"), body := none },
     false)
  else
    match gemini with
    | GeminiOutcome.failure msg =>
      ({ status := 500, errorMessage := some msg, body := none }, true)
    | GeminiOutcome.ok text =>
      match parseAssessment text with
      | some assessment =>
        ({ status := 200, errorMessage := none, body := some assessment }, true)
      | none =>
        ({ status := 500,
           errorMessage := some ("An error occurred during the assessment"), body := none }, true)

/-- Confidence tier attached by the free-text extractors of unnamed
part_002. -/
inductive ConfTier where
  | high
  | medium
  | low
  deriving DecidableEq

/-- A JavaScript `matchAll` result entry: start index, full match
(`match[0]`) and first capture group (`match[1]`). -/
structure RegexMatch where
  index : ℕ
  matched : String
  group1 : String
  deriving DecidableEq

/-- Where the JavaScript `$` assertion matches in a pattern WITHOUT the `m`
flag: only at the very end of the input (or just before one final newline).
This is the `$` that part_002 line 168 wrote instead of an escaped `\$`. -/
def dollarAnchorAt (s : List Char) (i : ℕ) : Prop :=
  i = s.length ∨ (i + 1 = s.length ∧ s.get? i = some '\n')

/-- Necessary conditions for an entry of
`response.matchAll(/$\s*([\d,]+(?:.\d+)?)\s*(?:k|thousand|million|m)?\b/gi)`
(part_002 `extractCostEstimate`, line 168): the match starts where the `$`
assertion holds, and after optional whitespace the capture `[\d,]+` must
consume at least one digit-or-comma character. -/
def CostMatchSound (s : String) (m : RegexMatch) : Prop :=
  dollarAnchorAt s.data m.index ∧
  (match ((s.data.drop m.index).dropWhile Char.isWhitespace).head? with
   | some c => c.isDigit = true ∨ c = ','
   | none => False)

/-- Whether `needle` occurs at the start of `hay`. -/
def beginsWith : List Char → List Char → Bool
  | _, [] => true
  | [], _ :: _ => false
  | h :: t, n :: m => h == n && beginsWith t m

/-- Whether `needle` occurs contiguously anywhere in `hay`
(JavaScript `String.prototype.includes`). -/
def containsSeq : List Char → List Char → Bool
  | [], needle => needle.isEmpty
  | h :: t, needle => beginsWith (h :: t) needle || containsSeq t needle

/-- Lower-cased character list of a string (for the `i` regex flag and
`toLowerCase()` calls). -/
def lowerChars (s : String) : List Char := s.data.map Char.toLower

/-- Necessary condition for an entry of
`response.matchAll(/([\d,]+(?:.\d+)?)\s*(?:k|thousand|million|m)?\s*(?:dollars|usd)/gi)`
(part_002 `extractCostEstimate`, line 219): the input must contain the
literal `dollars` or `usd` (case-insensitively). -/
def NumMatchSound (s : String) (m : RegexMatch) : Prop :=
  containsSeq (lowerChars s) (("dollars").data) = true ∨
  containsSeq (lowerChars s) (("usd").data) = true

/-- Numeric value of a digit character. -/
def digitVal (c : Char) : ℚ := ((c.toNat - 48 : ℕ) : ℚ)

/-- Integer part of a JS `parseFloat` on a digits-and-commas numeral with
the commas already removed. -/
def parseIntChars (cs : List Char) : ℚ :=
  cs.foldl (fun acc c => acc * 10 + digitVal c) 0

/-- Fractional part: digits after the decimal point. -/
def parseFracChars (cs : List Char) : ℚ :=
  cs.foldr (fun c acc => (digitVal c + acc) / 10) 0

/-- `parseFloat(str.replace(/,/g, ""))` on the well-formed numerals the
extractor captures. -/
def parseNumStr (s : String) : ℚ :=
  let cs := s.data.filter (fun c => c != ',')
  match cs.splitOn '.' with
  | [ip] => parseIntChars ip
  | [ip, fp] => parseIntChars ip + parseFracChars fp
  | _ => 0

/-- part_002 `extractCostEstimate` multiplier adjustment: `*1000` when the
full match includes `k` or `thousand`, `*1000000` when it includes `m` or
`million`. -/
def costMultiplier (full : String) (v : ℚ) : ℚ :=
  let lc := lowerChars full
  if lc.contains 'k' || containsSeq lc (("thousand").data) then v * 1000
  else if lc.contains 'm' || containsSeq lc (("million").data) then v * 1000000
  else v

/-- Sentence split on `[.!?]+` used by the context scan of part_002 (runs of
terminators produce empty sentences, which never contain a keyword and so
do not affect the scan). -/
def splitSentences : List Char → List (List Char)
  | [] => [[]]
  | c :: rest =>
    let r := splitSentences rest
    if c = '.' ∨ c = '!' ∨ c = '?' then [] :: r
    else
      match r with
      | [] => [[c]]
      | h :: t => (c :: h) :: t

/-- The topical keywords of the cost-context scan (part_002 lines 189-193). -/
def costContextKeywords : List String :=
  [("cost"), ("price"), ("investment"), ("install"), ("system")]

/-- The dollar-pattern branch of part_002 `extractCostEstimate` (lines
171-215): a match found in a sentence that also contains a cost keyword is
returned with tier `high`; otherwise the first match is returned with tier
`medium`. -/
def dollarBranch (s : String) (ms : List RegexMatch) (firstM : RegexMatch) : ℚ × ConfTier :=
  let sentences := splitSentences (lowerChars s)
  match ms.find? (fun m =>
      sentences.any (fun sent =>
        containsSeq sent (lowerChars m.matched) &&
        costContextKeywords.any (fun k => containsSeq sent k.data))) with
  | some m => (costMultiplier m.matched (parseNumStr m.group1), ConfTier.high)
  | none => (costMultiplier firstM.matched (parseNumStr firstM.group1), ConfTier.medium)

/-- The `matchAll` primitives consumed by `extractCostEstimate`, supplied as
an oracle (the JS regex engine); soundness of an oracle is constrained by
`CostMatchSound` and `NumMatchSound`. -/
structure CostRegexOracle where
  costMatches : String → List RegexMatch
  numberMatches : String → List RegexMatch

/-- part_002 `extractCostEstimate` (lines 166-241): dollar-pattern branch,
then the `dollars|usd` branch with tier `medium`, then the hardcoded
default 15000 with tier `low`. -/
def extractCostEstimate (oracle : CostRegexOracle) (response : String) : ℚ × ConfTier :=
  match oracle.costMatches response with
  | m :: ms => dollarBranch response (m :: ms) m
  | [] =>
    match oracle.numberMatches response with
    | m :: _ => (costMultiplier m.matched (parseNumStr m.group1), ConfTier.medium)
    | [] => (15000, ConfTier.low)

/-- An oracle that reports no matches at all (what any real regex engine
must report for the dead dollar pattern, and for the number pattern on
text without `dollars`/`usd`). -/
def emptyRegexOracle : CostRegexOracle :=
  { costMatches := fun _ => [], numberMatches := fun _ => [] }

/-- The input exhibiting the part_002 `extractCostEstimate` bug: a plain
dollar amount inside a sentence full of cost keywords. -/
def c8FailingInput : String := ("The total installation cost is $20,000.")

/-- Solar record of the compact variant solar-advisor/src/lib/solar.ts
(`SolarOut` there). -/
structure SolarOutS where
  annualKwh : ℚ
  roofAzimuthDeg : ℚ
  roofTiltDeg : ℚ
  panelCapacityKw : ℚ
  deriving DecidableEq

/-- solar-advisor/src/lib/solar.ts `getSolar`:
`const primary = await solarInsights(geo); return primary ?? await pvWatts(geo);`
The primary result arrives as an `Option` oracle and the backup as a thunk
(it is awaited only on the fallback path). The second component records the
providers consulted, in order. -/
def getSolarS (primary : Option SolarOutS) (secondary : Unit → SolarOutS) :
    SolarOutS × List SolarProvider :=
  match primary with
  | some p => (p, [SolarProvider.googleSolar])
  | none => (secondary (), [SolarProvider.googleSolar, SolarProvider.nrelPvwatts])

/-- A concrete Melissa-verified location, as `geocode` would produce from
its Melissa-coordinates branch. -/
def geo0 : GeoOut :=
  { lat := 34, lng := -118, std := ("123 Main St, Los Angeles CA 90001"),
    melissaVerified := true, confidence := 95 / 100,
    timeZone := ("America/Los_Angeles"), county := ("Los Angeles"),
    propertyType := none, parcelId := none, elevation := some 120 }

/-- A concrete unverified location, as `geocode` would produce from its
OpenStreetMap-only branch. -/
def geoU : GeoOut :=
  { lat := 34, lng := -118, std := ("123 Main St, Los Angeles CA 90001"),
    melissaVerified := false, confidence := 7 / 10,
    timeZone := ("America/Los_Angeles"),
    county := ("County data would be retrieved here"),
    propertyType := none, parcelId := none, elevation := some 120 }

/-- An assessment request whose address field is the empty string. -/
def reqEmptyAddress : AssessmentRequest :=
  { address := some (""), roofImages := [("roof1.png")], utilityBill := none }

/-- A well-formed assessment request (non-empty address, one roof image). -/
def reqGood : AssessmentRequest :=
  { address := some ("123 Main St, San Francisco, CA"), roofImages := [("roof1.png")],
    utilityBill := none }

/-- A store entry holding falsy data (`0`) with an expiry far in the
future. -/
def falsyEntry : MemoryEntry :=
  { data := JsValue.num 0, timestamp := 0, expiry := some 1000000 }

/-- A store entry holding truthy data with an expiry far in the future. -/
def truthyEntry : MemoryEntry :=
  { data := JsValue.str ("assessment-record"), timestamp := 0, expiry := some 1000000 }

/-- A store with one falsy-data entry under key `a`. -/
def storeFalsy : MemoryStore := setEntry emptyStore ("a") falsyEntry

/-- A store with one truthy-data entry under key `a`. -/
def storeTruthy : MemoryStore := setEntry emptyStore ("a") truthyEntry

theorem jround_eq_floor (x : ℚ) : jround x = ⌊x + 1 / 2⌋ := by
  rw [jround, Rat.floor_def', Rat.floor_def]

theorem abs_jround_sub (x : ℚ) : |((jround x : ℤ) : ℚ) - x| ≤ 1 / 2 := by
  have h1 := Int.floor_le (x + 1 / 2)
  have h2 := Int.sub_one_lt_floor (x + 1 / 2)
  rw [jround_eq_floor, abs_le]
  constructor <;> linarith

theorem monthlySum_bound (a : ℚ) (l : List ℕ) :
    |((l.map (fun (p : ℕ) => ((jround (a * (p : ℚ) / 100) : ℤ) : ℚ))).sum) -
        a * ((l.map (fun (p : ℕ) => (p : ℚ))).sum) / 100| ≤ (l.length : ℚ) / 2 := by
  induction l with
  | nil => simp
  | cons p t ih =>
    have hj := abs_jround_sub (a * (p : ℚ) / 100)
    simp only [List.map_cons, List.sum_cons, List.length_cons, Nat.cast_add, Nat.cast_one]
    have key :
        ((jround (a * (p : ℚ) / 100) : ℤ) : ℚ) +
            (t.map (fun (q : ℕ) => ((jround (a * (q : ℚ) / 100) : ℤ) : ℚ))).sum -
            a * ((p : ℚ) + (t.map (fun (q : ℕ) => (q : ℚ))).sum) / 100 =
          (((jround (a * (p : ℚ) / 100) : ℤ) : ℚ) - a * (p : ℚ) / 100) +
            ((t.map (fun (q : ℕ) => ((jround (a * (q : ℚ) / 100) : ℤ) : ℚ))).sum -
              a * ((t.map (fun (q : ℕ) => (q : ℚ))).sum) / 100) := by
      ring
    rw [key]
    have hsum := add_le_add hj ih
    have htri := abs_add
      (((jround (a * (p : ℚ) / 100) : ℤ) : ℚ) - a * (p : ℚ) / 100)
      ((t.map (fun (q : ℕ) => ((jround (a * (q : ℚ) / 100) : ℤ) : ℚ))).sum -
        a * ((t.map (fun (q : ℕ) => (q : ℚ))).sum) / 100)
    calc |(((jround (a * (p : ℚ) / 100) : ℤ) : ℚ) - a * (p : ℚ) / 100) +
            ((t.map (fun (q : ℕ) => ((jround (a * (q : ℚ) / 100) : ℤ) : ℚ))).sum -
              a * ((t.map (fun (q : ℕ) => (q : ℚ))).sum) / 100)|
        ≤ 1 / 2 + (t.length : ℚ) / 2 := le_trans htri hsum
      _ = ((t.length : ℚ) + 1) / 2 := by ring

/-- C6 (corrected): the 1% claim fails for small annual figures. With
`annualKwh = 10` at latitude 50 the twelve rounded monthly values sum to 9,
an error of 10%, so the sum is NOT within 1% of the annual figure. -/
theorem C6_counterexample :
    (calculateMonthlyProduction 10 50 5).sum = 9 ∧
    ¬ |(((calculateMonthlyProduction 10 50 5).sum : ℤ) : ℚ) - 10| ≤ 10 / 100 := by
  have h : (calculateMonthlyProduction 10 50 5).sum = 9 := by
    norm_num [calculateMonthlyProduction, northernDistribution, jround_eq_floor,
      List.sum_cons, List.sum_nil]
  refine ⟨h, ?_⟩
  rw [h]
  rw [show ((9 : ℤ) : ℚ) - 10 = -1 by norm_num, abs_neg, abs_one]
  norm_num

/-- C6 (amended): for every annual figure of at least 600 kWh (every
realistic solar estimate; each of the twelve `Math.round` calls contributes
at most 1/2 kWh of error and the percentage tables sum to exactly 100), the
monthly series produced by `calculateMonthlyProduction` sums to the annual
production within 1%. -/
theorem C6_amended_thm (annualKwh latitude systemSize : ℚ) (h : 600 ≤ annualKwh) :
    |(((calculateMonthlyProduction annualKwh latitude systemSize).sum : ℤ) : ℚ) - annualKwh| ≤
      annualKwh / 100 := by
  have key : ∀ l : List ℕ, l.sum = 100 → l.length = 12 →
      |(((l.map (fun (p : ℕ) => jround (annualKwh * (p : ℚ) / 100))).sum : ℤ) : ℚ) - annualKwh| ≤
        annualKwh / 100 := by
    intro l hs hl
    have hb := monthlySum_bound annualKwh l
    have hcast : ((l.map (fun (p : ℕ) => (p : ℚ))).sum) = ((l.sum : ℕ) : ℚ) := by
      simp
    rw [hcast, hs, hl] at hb
    norm_num at hb
    have hSq :
        (((l.map (fun (p : ℕ) => jround (annualKwh * (p : ℚ) / 100))).sum : ℤ) : ℚ) =
          (l.map (fun (p : ℕ) => ((jround (annualKwh * (p : ℚ) / 100) : ℤ) : ℚ))).sum := by
      push_cast
      rw [List.map_map]
      rfl
    rw [hSq]
    have h6 : (6 : ℚ) ≤ annualKwh / 100 := by linarith
    exact le_trans hb h6
  simp only [calculateMonthlyProduction]
  split_ifs with h1 h2
  · exact key northernDistribution (by decide) (by decide)
  · exact key middleDistribution (by decide) (by decide)
  · exact key southernDistribution (by decide) (by decide)

/-- Witness for C6 (amended) at `annualKwh = 600`, latitude 35. -/
theorem C6_amended_witness :
    (600 : ℚ) ≤ 600 ∧
    |(((calculateMonthlyProduction 600 35 5).sum : ℤ) : ℚ) - 600| ≤ 600 / 100 :=
  ⟨by norm_num, C6_amended_thm 600 35 5 (by norm_num)⟩

/-- C3 (confirmed): for every field processed by the solar-service
normalizer `extractValue`, an array value collapses to its first element
(in particular `[5, 7]` normalizes to `5`), and an absent field yields the
documented per-field default: `roofArea` 1800, `suitabilityScore` 75,
`roofType` "Composite Shingle". -/
theorem C3_thm (x dflt : JsValue) (xs : List JsValue) (fields : List (String × JsValue))
    (h1 : fields.lookup ("roofArea") = none)
    (h2 : fields.lookup ("suitabilityScore") = none)
    (h3 : fields.lookup ("roofType") = none) :
    extractValue (JsValue.arr (x :: xs)) dflt = x ∧
    extractValue (JsValue.arr [JsValue.num 5, JsValue.num 7]) dflt = JsValue.num 5 ∧
    (analysisDataOf (JsValue.obj fields)).roofArea = JsValue.num 1800 ∧
    (analysisDataOf (JsValue.obj fields)).suitabilityScore = JsValue.num 75 ∧
    (analysisDataOf (JsValue.obj fields)).roofType = JsValue.str ("Composite Shingle") := by
  refine ⟨rfl, rfl, ?_, ?_, ?_⟩ <;>
    simp [analysisDataOf, getField, extractValue, h1, h2, h3]

/-- Witness for C3 on the empty payload. -/
theorem C3_witness :
    extractValue (JsValue.arr (JsValue.num 5 :: [JsValue.num 7])) JsValue.undef = JsValue.num 5 ∧
    extractValue (JsValue.arr [JsValue.num 5, JsValue.num 7]) JsValue.undef = JsValue.num 5 ∧
    (analysisDataOf (JsValue.obj [])).roofArea = JsValue.num 1800 ∧
    (analysisDataOf (JsValue.obj [])).suitabilityScore = JsValue.num 75 ∧
    (analysisDataOf (JsValue.obj [])).roofType = JsValue.str ("Composite Shingle") :=
  C3_thm (JsValue.num 5) JsValue.undef [JsValue.num 7] [] rfl rfl rfl

/-- C4 (confirmed): solar.ts `getSolar` tries Google Solar first; a non-null
primary result is returned as-is and NREL PVWatts is never consulted; the
backup is consulted (after the primary) exactly on the fallback path. -/
theorem C4_thm (p : SolarOutS) (secondary : Unit → SolarOutS) :
    getSolarS (some p) secondary = (p, [SolarProvider.googleSolar]) ∧
    SolarProvider.nrelPvwatts ∉ (getSolarS (some p) secondary).2 ∧
    (getSolarS none secondary).2 = [SolarProvider.googleSolar, SolarProvider.nrelPvwatts] := by
  refine ⟨rfl, ?_, rfl⟩
  simp [getSolarS]

/-- C1 (corrected): the minimum-confidence invariant fails on the code. With
a Melissa-verified location (stage confidence 0.95) and a successful NREL
PVWatts stage (stage confidence 0.85), `enrichSolarData` raises the final
solar confidence to 0.9, strictly above the minimum (0.85) of the stage
confidences; no overall min-confidence is computed anywhere. -/
theorem C1_counterexample :
    geo0.confidence = 95 / 100 ∧
    (pvWatts (NrelOutcome.ok 8000 none) geo0).confidence = 85 / 100 ∧
    ((getSolar none (NrelOutcome.ok 8000 none) geo0).1).confidence = 9 / 10 ∧
    ¬ ((getSolar none (NrelOutcome.ok 8000 none) geo0).1).confidence ≤
        min geo0.confidence ((pvWatts (NrelOutcome.ok 8000 none) geo0).confidence) := by
  have hconf : ((getSolar none (NrelOutcome.ok 8000 none) geo0).1).confidence = 9 / 10 := by
    simp only [getSolar, enrichSolarData, pvWatts, geo0]
    norm_num [inf_eq_min, min_def]
  refine ⟨rfl, rfl, hconf, ?_⟩
  rw [hconf, show geo0.confidence = 95 / 100 from rfl,
    show (pvWatts (NrelOutcome.ok 8000 none) geo0).confidence = 85 / 100 from rfl,
    min_eq_right (by norm_num : (85 / 100 : ℚ) ≤ 95 / 100)]
  norm_num

/-- C1 (amended): the finalized solar confidence is not the minimum of the
stage confidences; instead `enrichSolarData` sets it to
min(1, stage + 0.05) when the location is Melissa-verified and to the stage
confidence otherwise, so it can exceed the weakest input, though never by
more than 0.05. -/
theorem C1_amended_thm (primary : Option SolarOut) (nrel : NrelOutcome) (geo : GeoOut) :
    ((getSolar primary nrel geo).1).confidence =
      (if geo.melissaVerified then
        min 1 ((solarStageResult primary nrel geo).confidence + 5 / 100)
      else (solarStageResult primary nrel geo).confidence) ∧
    ((getSolar primary nrel geo).1).confidence ≤
      (solarStageResult primary nrel geo).confidence + 5 / 100 := by
  have hbase :
      ((getSolar primary nrel geo).1).confidence =
        (if geo.melissaVerified then
          min 1 ((solarStageResult primary nrel geo).confidence + 5 / 100)
        else (solarStageResult primary nrel geo).confidence) := by
    cases primary <;> simp [getSolar, solarStageResult, enrichSolarData]
  refine ⟨hbase, ?_⟩
  rw [hbase]
  split_ifs
  · exact min_le_right _ _
  · have h5 : (0 : ℚ) ≤ 5 / 100 := by norm_num
    linarith

/-- C2 (corrected): the geocoding capability violates the claim. When the
Melissa provider is unavailable and the OpenStreetMap lookup also fails,
`geocode` raises a hard `Geocoding failed` error instead of producing a
synthetic estimated Location. -/
theorem C2_counterexample :
    geocode melissaUnavailable none ("10 Main St") 0 =
      Except.error (("Geocoding failed: ") ++ osmFailureMessage) := rfl

/-- C2 (amended): the SOLAR capability behaves as claimed: when the Google
Solar adapter is unavailable and the NREL call fails in any way, `getSolar`
returns the synthetic `createEstimatedSolarData` record (no error), whose
confidence is the fixed constant 0.6 (0.65 after Melissa-verification
enrichment), always inside [0.5, 0.7]; the record has no provenance tag
field at all. The GEOCODING capability does not: with every provider
unavailable `geocode` produces a hard error, not a synthetic Location. -/
theorem C2_amended_thm (nrel : NrelOutcome) (geo : GeoOut) (addr : String) (elev : ℚ)
    (h : NrelOutcome.failed nrel = true) :
    (getSolar none nrel geo).1 = enrichSolarData (createEstimatedSolarData geo) geo ∧
    ((getSolar none nrel geo).1).confidence = (if geo.melissaVerified then 13 / 20 else 3 / 5) ∧
    1 / 2 ≤ ((getSolar none nrel geo).1).confidence ∧
    ((getSolar none nrel geo).1).confidence ≤ 7 / 10 ∧
    (geocode melissaUnavailable none addr elev).toOption = none := by
  have hpv : pvWatts nrel geo = createEstimatedSolarData geo := by
    cases nrel with
    | missingKey => rfl
    | httpError s => rfl
    | networkError => rfl
    | ok a m => simp [NrelOutcome.failed] at h
  have h1 : (getSolar none nrel geo).1 = enrichSolarData (createEstimatedSolarData geo) geo := by
    simp [getSolar, hpv]
  have hconf :
      ((getSolar none nrel geo).1).confidence = (if geo.melissaVerified then 13 / 20 else 3 / 5) := by
    rw [h1]
    simp only [enrichSolarData, createEstimatedSolarData]
    split_ifs with hm
    · norm_num [inf_eq_min, min_def]
    · norm_num
  refine ⟨h1, hconf, ?_, ?_, rfl⟩ <;> rw [hconf] <;> split_ifs <;> norm_num

/-- Witness for C2 (amended) with a missing NREL key and an unverified
location. -/
theorem C2_amended_witness :
    NrelOutcome.failed NrelOutcome.missingKey = true ∧
    ((getSolar none NrelOutcome.missingKey geoU).1).confidence = 3 / 5 ∧
    (geocode melissaUnavailable none ("10 Main St") 0).toOption = none := by
  refine ⟨rfl, ?_, (C2_amended_thm NrelOutcome.missingKey geoU ("10 Main St") 0 rfl).2.2.2.2⟩
  have h := (C2_amended_thm NrelOutcome.missingKey geoU ("10 Main St") 0 rfl).2.1
  rw [h]
  rfl

/-- C5 (corrected): the second half of the claim fails. A well-formed
request (non-empty address, one roof image) whose Gemini provider call
fails is surfaced to the caller as a hard 500 error — a non-InvalidRequest
error class — rather than resolving to a best-effort result. -/
theorem C5_counterexample :
    ((POST reqGood (GeminiOutcome.failure ("network error")) (fun _ => none)).1).status = 500 ∧
    ((POST reqGood (GeminiOutcome.failure ("network error")) (fun _ => none)).1).status ≠ 400 := by
  exact ⟨rfl, by decide⟩

/-- C5 (amended): an empty (or absent) address yields a synchronous 400
InvalidRequest response with the message `Address is required` and no
provider call; but InvalidRequest is NOT the only hard-failure class: with
a valid address and images, a Gemini provider failure is surfaced as a hard
500 error (and the provider was called). -/
theorem C5_amended_thm (req : AssessmentRequest) (gemini : GeminiOutcome)
    (parse : String → Option JsValue) (h : addressFalsy req.address = true)
    (req2 : AssessmentRequest) (msg : String) (parse2 : String → Option JsValue)
    (h2 : addressFalsy req2.address = false) (h3 : req2.roofImages.isEmpty = false) :
    (POST req gemini parse).1.status = 400 ∧
    (POST req gemini parse).1.errorMessage = some ("Address is required") ∧
    (POST req gemini parse).2 = false ∧
    (POST req2 (GeminiOutcome.failure msg) parse2).1.status = 500 ∧
    (POST req2 (GeminiOutcome.failure msg) parse2).2 = true := by
  simp [POST, h, h2, h3]

/-- Witness for C5 (amended) on the concrete empty-address and good
requests. -/
theorem C5_amended_witness :
    addressFalsy reqEmptyAddress.address = true ∧
    addressFalsy reqGood.address = false ∧
    reqGood.roofImages.isEmpty = false ∧
    ((POST reqEmptyAddress (GeminiOutcome.ok ("ignored")) (fun _ => none)).1.status = 400 ∧
     (POST reqEmptyAddress (GeminiOutcome.ok ("ignored")) (fun _ => none)).1.errorMessage =
       some ("Address is required") ∧
     (POST reqEmptyAddress (GeminiOutcome.ok ("ignored")) (fun _ => none)).2 = false ∧
     (POST reqGood (GeminiOutcome.failure ("boom")) (fun _ => none)).1.status = 500 ∧
     (POST reqGood (GeminiOutcome.failure ("boom")) (fun _ => none)).2 = true) :=
  ⟨rfl, rfl, rfl,
    C5_amended_thm reqEmptyAddress (GeminiOutcome.ok ("ignored")) (fun _ => none) rfl
      reqGood ("boom") (fun _ => none) rfl rfl⟩

/-- C7 (corrected): the Melissa adapter DOES invoke its external fetch more
than once within a single resolution: with a first attempt that fails and a
second that succeeds, the retry loop of `melissaValidation` performs 2
invocations of the same provider. -/
theorem C7_counterexample :
    (melissaFetchInvocations (fun i => decide (1 ≤ i))).2 = 2 ∧
    1 < (melissaFetchInvocations (fun i => decide (1 ≤ i))).2 := by
  exact ⟨rfl, by decide⟩

/-- C7 (amended): the Melissa adapter retries its own fetch, but at most 3
times per resolution (`maxAttempts = 3`); and the solar fallback resolver
consults each provider at most once (its consultation trace has no
duplicates), never re-trying a provider that signalled unavailable. -/
theorem C7_amended_thm (succeeds : ℕ → Bool) (primary : Option SolarOut) (nrel : NrelOutcome)
    (geo : GeoOut) :
    (melissaFetchInvocations succeeds).2 ≤ 3 ∧
    ((getSolar primary nrel geo).2).Nodup := by
  constructor
  · cases h0 : succeeds 0 <;> cases h1 : succeeds 1 <;> cases h2 : succeeds 2 <;>
      simp [melissaFetchInvocations, melissaRetryFrom, h0, h1, h2]
  · cases primary <;> simp [getSolar]

/-- C9 (confirmed): running the solar fallback resolver twice with the same
input — the primary provider always unavailable and the NREL outcome a
deterministic function (independent of the invocation counter) — produces
identical outputs, including through the synthetic-estimate path. -/
theorem C9_thm (insightsAt : ℕ → GeoOut → Option SolarOut) (nrelAt : ℕ → NrelOutcome)
    (geo : GeoOut) (hfail : ∀ k, insightsAt k geo = none)
    (hdet : ∀ k j, nrelAt k = nrelAt j) :
    (getSolarRun insightsAt nrelAt geo 0).1 =
      (getSolarRun insightsAt nrelAt geo (getSolarRun insightsAt nrelAt geo 0).2).1 := by
  simp only [getSolarRun, hfail]
  rw [hdet 1 3]

/-- Witness for C9: both runs on a concrete always-failing primary and a
constant NREL outcome produce the same synthetic-path output. -/
theorem C9_witness :
    (getSolarRun (fun _ _ => none) (fun _ => NrelOutcome.missingKey) geoU 0).1 =
      (getSolarRun (fun _ _ => none) (fun _ => NrelOutcome.missingKey) geoU
        ((getSolarRun (fun _ _ => none) (fun _ => NrelOutcome.missingKey) geoU 0).2)).1 :=
  C9_thm (fun _ _ => none) (fun _ => NrelOutcome.missingKey) geoU (fun _ => rfl) (fun _ _ => rfl)

/-- C10 (corrected): the claim fails for entries holding falsy data. Key
`a` is present and unexpired at time 5, yet because the stored data is the
falsy value `0`, `updateMemory` leaves the entry completely untouched: the
data is not replaced and the expiry is NOT cleared. -/
theorem C10_counterexample :
    (getMemory storeFalsy ("a") 5).1 = some (JsValue.num 0) ∧
    updateMemory storeFalsy ("a") (fun _ => JsValue.num 7) 5 ("a") = some falsyEntry ∧
    falsyEntry.expiry = some 1000000 := by
  exact ⟨rfl, rfl, rfl⟩

/-- C10 (amended): for every key present, unexpired and holding TRUTHY
data, `updateMemory` replaces the data with `f(data)`, stamps the current
time, and re-saves with no TTL — the expiry becomes `none`, so the entry is
still readable at every later time; entries holding falsy data are left
unchanged. -/
theorem C10_amended_thm (st : MemoryStore) (key : String) (f : JsValue → JsValue)
    (now later : ℚ) (entry : MemoryEntry) (hin : st key = some entry)
    (hlive : memoryExpired entry now = false) (htruthy : jsTruthy entry.data = true) :
    updateMemory st key f now key =
      some { data := f entry.data, timestamp := now, expiry := none } ∧
    (getMemory (updateMemory st key f now) key later).1 = some (f entry.data) := by
  have hupd :
      updateMemory st key f now =
        setEntry st key { data := f entry.data, timestamp := now, expiry := none } := by
    simp only [updateMemory, getMemory, hin, hlive]
    simp [htruthy, saveMemory]
  constructor
  · rw [hupd]
    simp [setEntry]
  · rw [hupd]
    simp [getMemory, setEntry, memoryExpired]

/-- Witness for C10 (amended) on a concrete one-entry store with truthy
data and a future expiry. -/
theorem C10_amended_witness :
    storeTruthy ("a") = some truthyEntry ∧
    memoryExpired truthyEntry 5 = false ∧
    jsTruthy truthyEntry.data = true ∧
    (updateMemory storeTruthy ("a") (fun _ => JsValue.num 7) 5 ("a") =
      some { data := JsValue.num 7, timestamp := 5, expiry := none } ∧
     (getMemory (updateMemory storeTruthy ("a") (fun _ => JsValue.num 7) 5) ("a") 999999999).1 =
      some (JsValue.num 7)) :=
  ⟨rfl, rfl, rfl,
    C10_amended_thm storeTruthy ("a") (fun _ => JsValue.num 7) 5 999999999 truthyEntry rfl rfl rfl⟩

theorem costMatch_unsound (s : String) (m : RegexMatch) : ¬ CostMatchSound s m := by
  rintro ⟨hanchor, hdig⟩
  rcases hanchor with h | ⟨hlen, hget⟩
  · rw [h, List.drop_length] at hdig
    exact hdig
  · have hlt : m.index < s.data.length := by omega
    have hdrop : s.data.drop m.index = ['\n'] := by
      rw [List.drop_eq_getElem_cons hlt]
      have hnl : s.data[m.index] = '\n' := by
        have h2 := hget
        rw [List.get?_eq_getElem?, List.getElem?_eq_getElem hlt] at h2
        exact Option.some.inj h2
      rw [hnl, hlen, List.drop_length]
    rw [hdrop] at hdig
    exact hdig

/-- C8 (code bug): part_002 line 168 writes `/$\s*([\d,]+...)/` with an
unescaped `$` — an end-of-input assertion, not a literal dollar sign — so
the dollar-amount pattern can never match anything (`costMatch_unsound`),
contradicting the comment `Look for dollar amounts` directly above it and
making the high tier unreachable from the `$` branch. On the failing input
`The total installation cost is $20,000.` (a dollar amount inside a
sentence full of cost keywords), any sound regex engine forces
`extractCostEstimate` to return the hardcoded default 15000 with tier
`low`, where the claim requires 20000 with tier `high`. -/
theorem C8_code_bug_thm (oracle : CostRegexOracle)
    (hc : ∀ m ∈ oracle.costMatches c8FailingInput, CostMatchSound c8FailingInput m)
    (hn : ∀ m ∈ oracle.numberMatches c8FailingInput, NumMatchSound c8FailingInput m) :
    extractCostEstimate oracle c8FailingInput = (15000, ConfTier.low) ∧
    ((15000 : ℚ), ConfTier.low) ≠ ((20000 : ℚ), ConfTier.high) := by
  have h1 : oracle.costMatches c8FailingInput = [] := by
    cases hm : oracle.costMatches c8FailingInput with
    | nil => rfl
    | cons m ms =>
      exact absurd (hc m (hm ▸ List.mem_cons_self m ms)) (costMatch_unsound _ _)
  have h2 : oracle.numberMatches c8FailingInput = [] := by
    cases hm : oracle.numberMatches c8FailingInput with
    | nil => rfl
    | cons m ms =>
      have hs := hn m (hm ▸ List.mem_cons_self m ms)
      have hno : ¬ NumMatchSound c8FailingInput m := by
        unfold NumMatchSound
        decide
      exact absurd hs hno
  refine ⟨?_, by decide⟩
  simp [extractCostEstimate, h1, h2]

/-- Witness for C8 with the (provably unique) empty-report regex oracle. -/
theorem C8_code_bug_witness :
    extractCostEstimate emptyRegexOracle c8FailingInput = (15000, ConfTier.low) ∧
    ((15000 : ℚ), ConfTier.low) ≠ ((20000 : ℚ), ConfTier.high) :=
  C8_code_bug_thm emptyRegexOracle (fun m hm => absurd hm (List.not_mem_nil m))
    (fun m hm => absurd hm (List.not_mem_nil m))
